import Mathlib

/-!
Shallow embedding of the nameko service-container core (`src/nameko/service.py`):
the worker execution protocol (`ServiceContainer._run_worker`), the managed-thread
exit handler (`ManagedThreadContainer._handle_thread_exited`), the container
lifecycle (`stop` / `kill` / `wait` over the one-shot `_died` event), worker-pool
configuration (`ServiceContainer.__init__`) and worker-context construction
(`WorkerContextBase.__init__`, `ServiceContainer.spawn_worker`).

Exceptions are modelled as natural-number codes; provider hooks are modelled by
their observable outcome (succeed, or raise a given exception), since the
container treats them as opaque callables.
-/

namespace Nameko

/-- Exception values are opaque to the container; model them as codes. -/
abbrev Exc := Nat

/-! ### Worker execution protocol (`ServiceContainer._run_worker`) -/

/-- One observable call the worker body makes into the dependency providers or
the result handler, in the order `_run_worker` performs them.  `handleResult`
and `workerResult` record the `(result, exc)` pair the code passes along. -/
inductive WEvent where
  | inject
  | workerSetup
  | invoke
  | handleResult (result : Option Nat) (exc : Option Exc)
  | workerResult (result : Option Nat) (exc : Option Exc)
  | workerTeardown
  | release
  deriving DecidableEq, Repr

/-- Outcomes of the opaque callables `_run_worker` invokes: each provider
fan-out either returns or raises, the service method returns a value or
raises, and the result handler is absent, returns, or raises. -/
structure HookBehavior where
  injectFail : Option Exc
  setupFail : Option Exc
  methodOutcome : Except Exc Nat
  handler : Option (Option Exc)
  workerResultFail : Option Exc
  teardownFail : Option Exc
  releaseFail : Option Exc
  deriving Repr

/-- `result` local of `_run_worker`: stays `None` when the method raised. -/
def resultOf : Except Exc Nat → Option Nat
  | .ok v => some v
  | .error _ => none

/-- `exc` local of `_run_worker`: the captured exception, if the method raised. -/
def excOf : Except Exc Nat → Option Exc
  | .ok _ => none
  | .error e => some e

/-- The tail of `_run_worker` after the result-handler step: `worker_result`,
`worker_teardown`, `release`, each aborting the worker task if it raises
(there is no `try`/`finally` in the source). -/
def teardown_phase (b : HookBehavior) (pre : List WEvent)
    (res : Option Nat) (exc : Option Exc) : List WEvent × Option Exc :=
  match b.workerResultFail with
  | some e => (pre ++ [.workerResult res exc], some e)
  | none =>
    match b.teardownFail with
    | some e => (pre ++ [.workerResult res exc, .workerTeardown], some e)
    | none => (pre ++ [.workerResult res exc, .workerTeardown, .release], b.releaseFail)

/-- `ServiceContainer._run_worker`: inject, setup, invoke (exceptions from the
invocation alone are caught and recorded in `exc`), optional result handler,
then `worker_result` / `worker_teardown` / `release`.  Returns the trace of
provider calls and the exception escaping the worker task, if any. -/
def run_worker (b : HookBehavior) : List WEvent × Option Exc :=
  match b.injectFail with
  | some e => ([.inject], some e)
  | none =>
    match b.setupFail with
    | some e => ([.inject, .workerSetup], some e)
    | none =>
      let res := resultOf b.methodOutcome
      let exc := excOf b.methodOutcome
      let pre := [WEvent.inject, .workerSetup, .invoke]
      match b.handler with
      | none => teardown_phase b pre res exc
      | some none => teardown_phase b (pre ++ [.handleResult res exc]) res exc
      | some (some e) => (pre ++ [.handleResult res exc], some e)

/-- Recognise `worker_result` calls in a trace. -/
def WEvent.isWorkerResult : WEvent → Bool
  | .workerResult _ _ => true
  | _ => false

/-- Recognise `release` calls in a trace. -/
def WEvent.isRelease : WEvent → Bool
  | .release => true
  | _ => false

/-! ### Managed-thread exit handling (`ManagedThreadContainer._handle_thread_exited`) -/

/-- How a managed greenthread ended, as distinguished by the `except` clauses
of `_handle_thread_exited`: normal return, `greenlet.GreenletExit` (the
container force-killed it), or any other unhandled exception. -/
inductive ThreadOutcome where
  | normal
  | greenletExit
  | failed (e : Exc)
  deriving DecidableEq, Repr

/-- The container-level reaction `_handle_thread_exited` takes. -/
inductive ThreadAction where
  | noAction
  | logWarning
  | killContainer (e : Exc)
  deriving DecidableEq, Repr

/-- `ManagedThreadContainer._handle_thread_exited` (both `spawn_managed_thread`
and `spawn_worker` link this handler): a force-killed thread only logs a
warning, an unhandled exception escalates to `kill(exc)`, a normal exit does
nothing. -/
def handle_thread_exited : ThreadOutcome → ThreadAction
  | .normal => .noAction
  | .greenletExit => .logWarning
  | .failed e => .killContainer e

/-- How the greenthread running `_run_worker` ends, as seen by the link
handler: `none` (no escaping exception) is a normal exit. -/
def threadOutcomeOf : Option Exc → ThreadOutcome
  | none => .normal
  | some e => .failed e

/-! ### Container lifecycle (`ManagedThreadContainer.stop` / `kill` / `wait`,
`ServiceContainer._handle_container_stop` / `_handle_container_kill`) -/

/-- The one-shot `_died` event: pending, fired with `None` by `stop`, or fired
with an exception by `kill`. -/
inductive Signal where
  | pending
  | stoppedOk
  | killedWith (e : Exc)
  deriving DecidableEq, Repr

/-- `self._died.ready()`: the event has fired. -/
def Signal.ready : Signal → Bool
  | .pending => false
  | _ => true

/-- One observable shutdown action, in the order `stop` / `kill` perform them. -/
inductive SEvent where
  | entrypointsStop
  | poolWaitall
  | injectionsStop
  | killActiveThreads
  | depsKill
  | killTimeoutWarn
  | sendSignal (cause : Option Exc)
  deriving DecidableEq, Repr

/-- Modelled from the spec: the outcome of the concurrent provider-kill
fan-out `self.dependencies.all.kill(exc)`.  `DependencySet` / `SpawningProxy`
live outside `src/`; per the spec the fan-out runs all providers concurrently
and joins before proceeding, so it either returns, exceeds `KILL_TIMEOUT`
(raising `eventlet.Timeout` at the join), or surfaces a provider exception
from the join as an ordinary exception. -/
inductive DepKillOutcome where
  | ok
  | timeout
  | raises (e : Exc)
  deriving DecidableEq, Repr

/-- `ManagedThreadContainer.stop` with `ServiceContainer._handle_container_stop`
inlined: no-op when `_died` is ready; otherwise stop entrypoints, drain the
worker pool, stop injections, kill remaining active threads, and fire `_died`
with no cause.  Returns the trace of shutdown actions and the new signal
state. -/
def stop (s : Signal) : List SEvent × Signal :=
  if s.ready then ([], s)
  else ([.entrypointsStop, .poolWaitall, .injectionsStop,
         .killActiveThreads, .sendSignal none], .stoppedOk)

/-- `ManagedThreadContainer.kill` with `ServiceContainer._handle_container_kill`
inlined: no-op when `_died` is ready; otherwise run the provider-kill fan-out
under `eventlet.Timeout(KILL_TIMEOUT)` — only `eventlet.Timeout` is caught
(logged as a warning); any other exception propagates to the caller, skipping
`_kill_active_threads` and the `_died.send_exception`.  Returns the trace, the
new signal state, and the exception `kill` itself raises, if any. -/
def kill (s : Signal) (d : DepKillOutcome) (e : Exc) :
    List SEvent × Signal × Option Exc :=
  if s.ready then ([], s, none)
  else
    match d with
    | .ok => ([.depsKill, .killActiveThreads, .sendSignal (some e)],
              .killedWith e, none)
    | .timeout => ([.depsKill, .killTimeoutWarn, .killActiveThreads,
                    .sendSignal (some e)], .killedWith e, none)
    | .raises ex => ([.depsKill], s, some ex)

/-- `ManagedThreadContainer.wait`, i.e. `self._died.wait()`: blocks (`none`)
while pending; once fired, returns normally after `send(None)` and raises the
cause after `send_exception(exc)`. -/
def wait : Signal → Option (Except Exc Unit)
  | .pending => none
  | .stoppedOk => some (.ok ())
  | .killedWith e => some (.error e)

/-- A lifecycle command issued against the container: `stop()`, or
`kill(e)` whose provider fan-out has outcome `d`. -/
inductive Cmd where
  | stopCmd
  | killCmd (d : DepKillOutcome) (e : Exc)
  deriving DecidableEq, Repr

/-- Run one lifecycle command, keeping the trace and resulting signal state. -/
def runCmd (s : Signal) : Cmd → List SEvent × Signal
  | .stopCmd => stop s
  | .killCmd d e => ((kill s d e).1, (kill s d e).2.1)

/-- Run a sequence of lifecycle commands, concatenating their traces. -/
def runCmds (s : Signal) : List Cmd → List SEvent × Signal
  | [] => ([], s)
  | c :: cs =>
    ((runCmd s c).1 ++ (runCmds (runCmd s c).2 cs).1, (runCmds (runCmd s c).2 cs).2)

/-- Number of `_died` firings (`send` or `send_exception`) in a trace. -/
def countSends (tr : List SEvent) : Nat :=
  (tr.filter fun ev => match ev with | .sendSignal _ => true | _ => false).length

/-! ### Configuration (`ServiceContainer.__init__`) -/

/-- The one recognised config key (typo as in the source). -/
def MAX_WOKERS_KEY : String := "max_workers"

/-- Python's `x or y` on integers: `y` when `x` is falsy (zero). -/
def pyOr (a b : Nat) : Nat := if a = 0 then b else a

/-- `ServiceContainer.__init__`: `config.get(MAX_WOKERS_KEY, 10) or 10`,
over a configuration mapping modelled as an association list. -/
def max_workers (config : List (String × Nat)) : Nat :=
  pyOr ((config.lookup MAX_WOKERS_KEY).getD 10) 10

/-! ### Worker context (`WorkerContextBase.__init__`, `ServiceContainer.spawn_worker`) -/

/-- The call-scoped fields of `WorkerContextBase` (argument values modelled as
naturals, keyword/data mappings as association lists). -/
structure WorkerContextBase where
  method_name : String
  args : List Nat
  kwargs : List (String × Nat)
  data : List (String × Nat)
  deriving DecidableEq, Repr

/-- `WorkerContextBase.__init__`: `args`/`kwargs`/`data` default to the empty
tuple / dict when passed as `None`. -/
def WorkerContextBase.init (method_name : String) (args : Option (List Nat))
    (kwargs : Option (List (String × Nat)))
    (data : Option (List (String × Nat))) : WorkerContextBase :=
  { method_name := method_name
    args := args.getD []
    kwargs := kwargs.getD []
    data := data.getD [] }

/-- `ServiceContainer.spawn_worker`: builds the worker context as
`worker_ctx_cls(self, service, provider.name, args, kwargs, data=context_data)`
(`context_data` defaults to `None`) and returns it. -/
def spawn_worker (provider_name : String) (args : List Nat)
    (kwargs : List (String × Nat))
    (context_data : Option (List (String × Nat))) : WorkerContextBase :=
  WorkerContextBase.init provider_name (some args) (some kwargs) context_data

/-! ## Theorems -/

/-- C1 (counterexample): the claim says `release` runs on every exit path of
the worker body even when the result handler raises.  In the source there is
no `try`/`finally`: with all providers well-behaved, the method returning 42
and a result handler raising exception 3, `release` is never invoked and the
exception escapes the worker task. -/
theorem C1_counterexample :
    WEvent.release ∉
      (run_worker ⟨none, none, Except.ok 42, some (some 3), none, none, none⟩).1 ∧
    (run_worker ⟨none, none, Except.ok 42, some (some 3), none, none, none⟩).2
      = some 3 := by
  decide

/-- C1 (amended): `release` is invoked on the injection providers on every
exit path of the method invocation itself — a service-method error is captured
and `release` still runs — provided the result handler, `worker_result` and
`worker_teardown` do not themselves raise (if one of them raises, the
exception escapes the worker task and `release` is skipped). -/
theorem C1_release_after_captured_call_error (b : HookBehavior)
    (hi : b.injectFail = none) (hs : b.setupFail = none)
    (hh : ∀ x, b.handler ≠ some (some x))
    (hw : b.workerResultFail = none) (ht : b.teardownFail = none) :
    WEvent.release ∈ (run_worker b).1 := by
  rcases hb : b.handler with _ | oe
  · simp [run_worker, hi, hs, hb, teardown_phase, hw, ht]
  · rcases oe with _ | x
    · simp [run_worker, hi, hs, hb, teardown_phase, hw, ht]
    · exact absurd hb (hh x)

/-- C1 witness: a run whose method raises exception 9 and whose supplied
result handler succeeds still reaches `release`. -/
theorem C1_release_after_captured_call_error_witness :
    WEvent.release ∈
      (run_worker ⟨none, none, Except.error 9, some none, none, none, none⟩).1 :=
  C1_release_after_captured_call_error
    ⟨none, none, Except.error 9, some none, none, none, none⟩ rfl rfl
    (fun _ h => Option.noConfusion (Option.some.inj h)) rfl rfl

/-- C3: for every managed task, `_handle_thread_exited` kills the container
with the task's unhandled exception as cause, only logs a warning when the
task was force-killed (`GreenletExit`), and does nothing on a normal exit. -/
theorem C3_thread_exit_policy (e : Exc) :
    handle_thread_exited (ThreadOutcome.failed e) = ThreadAction.killContainer e ∧
    handle_thread_exited ThreadOutcome.greenletExit = ThreadAction.logWarning ∧
    handle_thread_exited ThreadOutcome.normal = ThreadAction.noAction :=
  ⟨rfl, rfl, rfl⟩

/-- C6: a worker whose invoked method raises `e` (all provider hooks and the
result handler well-behaved) still runs `worker_result` exactly once and
`release` exactly once, passes `(None, e)` as the call's outcome to
`worker_result`, lets no exception escape the worker task, and is therefore
not escalated to container failure by the thread-exit handler. -/
theorem C6_call_error_contained (b : HookBehavior) (e : Exc)
    (hi : b.injectFail = none) (hs : b.setupFail = none)
    (hm : b.methodOutcome = Except.error e)
    (hh : ∀ x, b.handler ≠ some (some x))
    (hw : b.workerResultFail = none) (ht : b.teardownFail = none)
    (hr : b.releaseFail = none) :
    ((run_worker b).1.filter WEvent.isWorkerResult).length = 1 ∧
    ((run_worker b).1.filter WEvent.isRelease).length = 1 ∧
    WEvent.workerResult none (some e) ∈ (run_worker b).1 ∧
    (run_worker b).2 = none ∧
    handle_thread_exited (threadOutcomeOf (run_worker b).2) = ThreadAction.noAction := by
  rcases hb : b.handler with _ | oe
  · simp [run_worker, hi, hs, hm, hb, teardown_phase, hw, ht, hr, resultOf, excOf,
      WEvent.isWorkerResult, WEvent.isRelease, handle_thread_exited, threadOutcomeOf]
  · rcases oe with _ | x
    · simp [run_worker, hi, hs, hm, hb, teardown_phase, hw, ht, hr, resultOf, excOf,
        WEvent.isWorkerResult, WEvent.isRelease, handle_thread_exited, threadOutcomeOf]
    · exact absurd hb (hh x)

/-- C6 witness: a concrete run whose method raises exception 4, with a
succeeding result handler. -/
theorem C6_call_error_contained_witness :
    (((run_worker ⟨none, none, Except.error 4, some none, none, none, none⟩).1.filter
        WEvent.isWorkerResult).length = 1) ∧
    (((run_worker ⟨none, none, Except.error 4, some none, none, none, none⟩).1.filter
        WEvent.isRelease).length = 1) ∧
    WEvent.workerResult none (some 4) ∈
      (run_worker ⟨none, none, Except.error 4, some none, none, none, none⟩).1 ∧
    (run_worker ⟨none, none, Except.error 4, some none, none, none, none⟩).2 = none ∧
    handle_thread_exited (threadOutcomeOf
      (run_worker ⟨none, none, Except.error 4, some none, none, none, none⟩).2)
      = ThreadAction.noAction :=
  C6_call_error_contained ⟨none, none, Except.error 4, some none, none, none, none⟩ 4
    rfl rfl rfl (fun _ h => Option.noConfusion (Option.some.inj h)) rfl rfl rfl

/-- C8: with every provider hook well-behaved, the worker body performs
exactly inject, `worker_setup`, the invocation, the result handler (when
supplied), `worker_result`, `worker_teardown`, `release`, in that order, and
no exception escapes; without a supplied handler the same sequence runs minus
the handler step. -/
theorem C8_worker_step_order (b : HookBehavior)
    (hi : b.injectFail = none) (hs : b.setupFail = none)
    (hw : b.workerResultFail = none) (ht : b.teardownFail = none)
    (hr : b.releaseFail = none) :
    (b.handler = some none →
      run_worker b = ([.inject, .workerSetup, .invoke,
        .handleResult (resultOf b.methodOutcome) (excOf b.methodOutcome),
        .workerResult (resultOf b.methodOutcome) (excOf b.methodOutcome),
        .workerTeardown, .release], none)) ∧
    (b.handler = none →
      run_worker b = ([.inject, .workerSetup, .invoke,
        .workerResult (resultOf b.methodOutcome) (excOf b.methodOutcome),
        .workerTeardown, .release], none)) := by
  constructor <;> intro hb <;>
    simp [run_worker, hi, hs, hb, teardown_phase, hw, ht, hr]

/-- C8 witness: a concrete run whose method returns 42, with a supplied
succeeding handler, produces the seven-step trace. -/
theorem C8_worker_step_order_witness :
    run_worker ⟨none, none, Except.ok 42, some none, none, none, none⟩ =
      ([.inject, .workerSetup, .invoke, .handleResult (some 42) none,
        .workerResult (some 42) none, .workerTeardown, .release], none) :=
  (C8_worker_step_order ⟨none, none, Except.ok 42, some none, none, none, none⟩
    rfl rfl rfl rfl rfl).1 rfl

/-- Helper: on a container whose `_died` event already fired, any lifecycle
command returns immediately with no shutdown action and no state change. -/
theorem ready_runCmd (s : Signal) (c : Cmd) (h : s.ready = true) :
    runCmd s c = ([], s) := by
  cases c <;> simp [runCmd, stop, kill, h]

/-- Helper: a command sequence on a container whose `_died` event already
fired performs no shutdown action and leaves the state unchanged. -/
theorem ready_runCmds : ∀ (cmds : List Cmd) (s : Signal), s.ready = true →
    runCmds s cmds = ([], s)
  | [], _, _ => rfl
  | c :: cs, s, h => by
    simp [runCmds, ready_runCmd s c h, ready_runCmds cs s h]

/-- Helper: any command sequence from a pending container fires the
completion signal at most once. -/
theorem pending_bound : ∀ cmds : List Cmd,
    countSends (runCmds Signal.pending cmds).1 ≤ 1
  | [] => by decide
  | c :: cs => by
    cases c with
    | stopCmd =>
      have htail : runCmds Signal.stoppedOk cs = ([], Signal.stoppedOk) :=
        ready_runCmds cs Signal.stoppedOk rfl
      show countSends ((runCmd Signal.pending Cmd.stopCmd).1 ++
        (runCmds Signal.stoppedOk cs).1) ≤ 1
      rw [htail]
      decide
    | killCmd d e =>
      cases d with
      | ok =>
        have htail : runCmds (Signal.killedWith e) cs = ([], Signal.killedWith e) :=
          ready_runCmds cs (Signal.killedWith e) rfl
        show countSends
          ((runCmd Signal.pending (Cmd.killCmd DepKillOutcome.ok e)).1 ++
            (runCmds (Signal.killedWith e) cs).1) ≤ 1
        rw [htail]
        exact Nat.le_refl 1
      | timeout =>
        have htail : runCmds (Signal.killedWith e) cs = ([], Signal.killedWith e) :=
          ready_runCmds cs (Signal.killedWith e) rfl
        show countSends
          ((runCmd Signal.pending (Cmd.killCmd DepKillOutcome.timeout e)).1 ++
            (runCmds (Signal.killedWith e) cs).1) ≤ 1
        rw [htail]
        exact Nat.le_refl 1
      | raises ex =>
        exact pending_bound cs

/-- C2: `stop()` on a non-terminal container performs, in this strict order,
entrypoint-provider stop, full worker-pool drain, injection-provider stop,
force-kill of remaining registered tasks, and finally fires the completion
signal with no cause, leaving the container stopped. -/
theorem C2_stop_sequence (s : Signal) (h : s.ready = false) :
    stop s = ([.entrypointsStop, .poolWaitall, .injectionsStop,
               .killActiveThreads, .sendSignal none], .stoppedOk) := by
  simp [stop, h]

/-- C2 witness: the sequence from the pending state. -/
theorem C2_stop_sequence_witness :
    stop Signal.pending = ([.entrypointsStop, .poolWaitall, .injectionsStop,
      .killActiveThreads, .sendSignal none], Signal.stoppedOk) :=
  C2_stop_sequence Signal.pending rfl

/-- C4: after a non-terminal container is terminated by `kill(e)` (provider
fan-out completing or timing out), `wait()` raises exactly `e`; after it is
terminated by `stop()`, `wait()` returns normally. -/
theorem C4_wait_outcome (s : Signal) (d : DepKillOutcome) (e : Exc)
    (h : s.ready = false)
    (hd : d = DepKillOutcome.ok ∨ d = DepKillOutcome.timeout) :
    wait (kill s d e).2.1 = some (Except.error e) ∧
    wait (stop s).2 = some (Except.ok ()) := by
  rcases hd with hd | hd <;> subst hd <;> simp [kill, stop, wait, h]

/-- C4 witness: killing a pending container with cause 7, and stopping a
pending container. -/
theorem C4_wait_outcome_witness :
    wait (kill Signal.pending DepKillOutcome.ok 7).2.1 = some (Except.error 7) ∧
    wait (stop Signal.pending).2 = some (Except.ok ()) :=
  C4_wait_outcome Signal.pending DepKillOutcome.ok 7 rfl (Or.inl rfl)

/-- C5: on an already-terminal container every further `stop()`/`kill()` is a
no-op (no shutdown action, state unchanged), and over any command sequence
the completion signal fires at most once per container lifetime. -/
theorem C5_signal_once :
    (∀ (s : Signal) (c : Cmd), s.ready = true → runCmd s c = ([], s)) ∧
    (∀ (s : Signal) (cmds : List Cmd), countSends (runCmds s cmds).1 ≤ 1) := by
  refine ⟨ready_runCmd, fun s cmds => ?_⟩
  cases s with
  | pending => exact pending_bound cmds
  | stoppedOk =>
    rw [ready_runCmds cmds Signal.stoppedOk rfl]
    decide
  | killedWith e =>
    rw [ready_runCmds cmds (Signal.killedWith e) rfl]
    exact Nat.zero_le 1

/-- C5 witness: a stopped container ignores a further `stop()`, and a
stop-then-kill sequence from pending fires the signal at most once. -/
theorem C5_signal_once_witness :
    runCmd Signal.stoppedOk Cmd.stopCmd = ([], Signal.stoppedOk) ∧
    countSends (runCmds Signal.pending
      [Cmd.stopCmd, Cmd.killCmd DepKillOutcome.ok 3]).1 ≤ 1 :=
  ⟨C5_signal_once.1 Signal.stoppedOk Cmd.stopCmd rfl,
   C5_signal_once.2 Signal.pending [Cmd.stopCmd, Cmd.killCmd DepKillOutcome.ok 3]⟩

/-- C7 (counterexample): the claim says `kill(cause)` never raises, including
when a dependency provider's kill hook raises.  `_handle_container_kill`
catches only `eventlet.Timeout`, so a provider kill hook raising exception 5
propagates out of `kill` to its caller. -/
theorem C7_counterexample :
    ¬ ((kill Signal.pending (DepKillOutcome.raises 5) 7).2.2 = none) := by
  decide

/-- C7 (amended): `kill(cause)` does not raise to its caller when the
container is already terminal or when the provider-kill fan-out completes or
times out (the `KILL_TIMEOUT` expiry is caught and logged); only an exception
raised by a provider's kill hook propagates. -/
theorem C7_kill_no_raise_unless_provider_raises (s : Signal)
    (d : DepKillOutcome) (e : Exc)
    (h : s.ready = true ∨ d = DepKillOutcome.ok ∨ d = DepKillOutcome.timeout) :
    (kill s d e).2.2 = none := by
  rcases h with h | h | h
  · simp [kill, h]
  · subst h; cases s <;> simp [kill, Signal.ready]
  · subst h; cases s <;> simp [kill, Signal.ready]

/-- C7 witness: a provider-kill phase that times out still leaves `kill`
returning without raising. -/
theorem C7_kill_no_raise_unless_provider_raises_witness :
    (kill Signal.pending DepKillOutcome.timeout 9).2.2 = none :=
  C7_kill_no_raise_unless_provider_raises Signal.pending DepKillOutcome.timeout 9
    (Or.inr (Or.inr rfl))

/-- C9: the maximum number of concurrent workers is 10 when the
`max_workers` option is absent or supplied as 0, and the supplied value
otherwise. -/
theorem C9_max_workers (config : List (String × Nat)) :
    (config.lookup MAX_WOKERS_KEY = none → max_workers config = 10) ∧
    (config.lookup MAX_WOKERS_KEY = some 0 → max_workers config = 10) ∧
    (∀ v, config.lookup MAX_WOKERS_KEY = some v → v ≠ 0 →
      max_workers config = v) := by
  refine ⟨fun h => ?_, fun h => ?_, fun v h hv => ?_⟩
  · simp [max_workers, pyOr, h]
  · simp [max_workers, pyOr, h]
  · simp [max_workers, pyOr, h, hv]

/-- C9 witness: absent, zero, and nonzero configurations. -/
theorem C9_max_workers_witness :
    max_workers [] = 10 ∧
    max_workers [("max_workers", 0)] = 10 ∧
    max_workers [("max_workers", 25)] = 25 :=
  ⟨(C9_max_workers []).1 rfl,
   (C9_max_workers [("max_workers", 0)]).2.1 rfl,
   (C9_max_workers [("max_workers", 25)]).2.2 25 rfl (by decide)⟩

/-- C10: `spawn_worker` with `context_data` omitted (`None`) yields a worker
context whose data mapping is empty; a worker context constructed with
`args=None` has the empty tuple as args, and with `kwargs=None` the empty
dict as kwargs. -/
theorem C10_context_defaults (pn mn : String) (a : List Nat)
    (k : List (String × Nat)) (kw : Option (List (String × Nat)))
    (dt : Option (List (String × Nat))) :
    (spawn_worker pn a k none).data = [] ∧
    (WorkerContextBase.init mn none kw dt).args = [] ∧
    (WorkerContextBase.init mn (some a) none dt).kwargs = [] :=
  ⟨rfl, rfl, rfl⟩

end Nameko
